import Mathlib

/-!
Shallow embedding of the asynchronous image-generation task lifecycle of the
atxp-cloudflare-agent-example repository.

The embedding covers:
  * the task record and task store (Durable Object storage keyed by
    "imageTask:" prefixed keys);
  * pollImageGenerationTask from the current server (src/unnamed/part_003)
    and from the legacy server (src/unnamed/part_004);
  * the generateImage tool from src/unnamed/part_002 and the legacy variant
    in src/src/tools/imageGeneration.ts;
  * the connection-string utilities of src/src/utils/atxp.ts.

External collaborators (Durable Object storage, the MCP image and filestore
services, the ATXP client, JSON.parse and the URL constructor) are modelled
as oracle inputs: each remote or host step is a parameter recording whether
the step succeeded and with which value, so one invocation of a lifecycle
operation is a pure function of the current store, the current time and the
oracle outcomes.  Broadcast notifications are collected in an event list and
schedule calls in a list of delays measured from now, in milliseconds.
-/

/-- Task status values.  The current code (part_000, part_002, part_003) uses
pending / running / completed / failed; the legacy code (part_004 and the
legacy tools file) uses pending / processing / completed / failed.  One
inductive carries all five strings. -/
inductive TaskStatus where
  | pending
  | running
  | processing
  | completed
  | failed
deriving DecidableEq

/-- The ImageGenerationTask record (src/unnamed/part_000 lines 101-111,
src/unnamed/part_004 lines 39-49).  Dates are modelled as Nat time units. -/
structure ImageGenerationTask where
  id : String
  prompt : String
  status : TaskStatus
  taskId : Option String := none
  imageUrl : Option String := none
  fileName : Option String := none
  fileId : Option String := none
  createdAt : Nat
  updatedAt : Nat
deriving DecidableEq

/-- The durable task store: a keyed map from storage keys to task records. -/
def TaskStore := String → Option ImageGenerationTask

/-- The store before any task has been created. -/
def emptyStore : TaskStore := fun _ => none

/-- storage.put: atomically overwrite one key. -/
def storePut (s : TaskStore) (k : String) (v : ImageGenerationTask) : TaskStore :=
  fun k0 => if k0 = k then some v else s k0

/-- Storage key used for a task: the "imageTask:" prefix followed by the
identifier (taskId in part_002/part_003, requestId in part_004 and the
legacy tools file). -/
def imageTaskKey (ident : String) : String := "imageTask:" ++ ident

/-- Whitespace characters recognized by the JS String.prototype.trim model
used below. -/
def isJsWhitespace (c : Char) : Bool :=
  (c == ' ') || (c == '\t') || (c == '\n') || (c == '\r')

/-- Model of the host String.prototype.trim: strip leading and trailing
whitespace. -/
def jsTrim (s : String) : String :=
  String.mk (((s.data.dropWhile isJsWhitespace).reverse.dropWhile isJsWhitespace).reverse)

/-- Model of the host String.prototype.startsWith. -/
def jsStartsWith (s pre : String) : Bool :=
  pre.data.isPrefixOf s.data

/-- JavaScript truthiness of an optional string: undefined and the empty
string are falsy. -/
def truthyStr : Option String → Bool
  | none => false
  | some s => !(s == "")

/-- Parsed result of imageService.getAsyncStatusResult: a status string and
an optional url (src/unnamed/part_000 lines 156-162). -/
structure AsyncStatusResult where
  status : String
  url : Option String
deriving DecidableEq

/-- Parsed result of filestoreService.getResult (src/unnamed/part_000
lines 173-179). -/
structure FileStoreResult where
  filename : String
  url : String
  fileId : Option String
deriving DecidableEq

/-- Broadcast events emitted by the lifecycle code, by their type tag. -/
inductive BroadcastEvent where
  | imageGenerationCompleted (taskId : String) (imageUrl : Option String) (fileName : Option String)
  | imageGenerationFailed (taskId : String)
  | imageGenerationProgress (taskId : String)
  | imageGenerationError (taskId : String)
  | imageGenerationStoring (taskId : String)
  | imageGenerationWarning (taskId : String)
deriving DecidableEq

/-- Outcome of one poll attempt: the store after the attempt, the broadcast
events emitted, the delays (ms from now) of the poll attempts scheduled, and
whether the remote status tool was actually invoked. -/
structure PollOutcome where
  store : TaskStore
  events : List BroadcastEvent
  scheduled : List Nat
  statusChecked : Bool

/-- Delay before the first poll scheduled by the current generateImage tool:
Date.now() + 10000 (src/unnamed/part_002 line 131). -/
def startPollDelayMs : Nat := 10000

/-- Delay before the first poll scheduled by the legacy generateImage tool:
Date.now() + 5000 (src/src/tools/imageGeneration.ts line 285). -/
def legacyStartPollDelayMs : Nat := 5000

/-- Steady-state repoll delay when the remote job is still in progress:
Date.now() + 10000 (src/unnamed/part_003 line 369, part_004 line 320). -/
def runningPollDelayMs : Nat := 10000

/-- Retry delay after an error during a poll attempt: Date.now() + 15000
(src/unnamed/part_003 line 388, part_004 line 337). -/
def errorRetryDelayMs : Nat := 15000

/-- Oracle outcomes of the external steps of one poll attempt of the current
poller (src/unnamed/part_003).  loadThrows: this.state.storage.get threw
(the inner catch then proceeds with taskData = null); accountOk:
findATXPAccount returned normally; clientOk: atxpClient creation succeeded
(its failure is caught at lines 258-261 and the method returns); statusCall:
the combined callTool + getAsyncStatusResult step, an exception from which
reaches the outer catch; putThrows: storage.put threw (swallowed by the
inner catch blocks around both puts in part_003). -/
structure PollEnv3 where
  loadThrows : Bool
  accountOk : Bool
  clientOk : Bool
  statusCall : Except String AsyncStatusResult
  putThrows : Bool

/-- The minimal fallback record synthesized by part_003 lines 176-186 when
storage returned no usable record: status running, placeholder prompt. -/
def fallbackTask (now : Nat) (taskId : String) : ImageGenerationTask :=
  { id := taskId
    prompt := "Generated image"
    status := TaskStatus.running
    taskId := some taskId
    createdAt := now
    updatedAt := now }

/-- Steps 2-6 of the current poller, parameterized by the task record the
load step produced: return if the record is not running; resolve the
account (a throw reaches the outer catch, which schedules a retry in 15s
and broadcasts an error notice); create the image client (a failure is
caught locally and the method just returns); call the status tool; then
branch on completed-with-truthy-url / failed / running, anything else
falling through with no effect. -/
def poll3Body (now : Nat) (taskId : String) (env : PollEnv3)
    (taskData : ImageGenerationTask) (store : TaskStore) : PollOutcome :=
  if taskData.status ≠ TaskStatus.running then
    { store := store, events := [], scheduled := [], statusChecked := false }
  else if !env.accountOk then
    { store := store
      events := [BroadcastEvent.imageGenerationError taskId]
      scheduled := [errorRetryDelayMs]
      statusChecked := false }
  else if !env.clientOk then
    { store := store, events := [], scheduled := [], statusChecked := false }
  else
    match env.statusCall with
    | Except.error _ =>
      { store := store
        events := [BroadcastEvent.imageGenerationError taskId]
        scheduled := [errorRetryDelayMs]
        statusChecked := true }
    | Except.ok st =>
      if st.status = "completed" ∧ truthyStr st.url then
        let updated : ImageGenerationTask :=
          { taskData with
              status := TaskStatus.completed
              imageUrl := st.url
              updatedAt := now }
        { store :=
            if env.putThrows then store
            else storePut store (imageTaskKey taskId) updated
          events :=
            [BroadcastEvent.imageGenerationCompleted taskId updated.imageUrl updated.fileName]
          scheduled := []
          statusChecked := true }
      else if st.status = "failed" then
        let updated : ImageGenerationTask :=
          { taskData with status := TaskStatus.failed, updatedAt := now }
        { store :=
            if env.putThrows then store
            else storePut store (imageTaskKey taskId) updated
          events := [BroadcastEvent.imageGenerationFailed taskId]
          scheduled := []
          statusChecked := true }
      else if st.status = "running" then
        { store := store
          events := [BroadcastEvent.imageGenerationProgress taskId]
          scheduled := [runningPollDelayMs]
          statusChecked := true }
      else
        { store := store, events := [], scheduled := [], statusChecked := true }

/-- pollImageGenerationTask of the current server, src/unnamed/part_003
lines 155-402: load the record, falling back to the synthesized running
record when the load throws or finds nothing, then run the body. -/
def pollImageGenerationTask3 (now : Nat) (taskId : String) (env : PollEnv3)
    (store : TaskStore) : PollOutcome :=
  poll3Body now taskId env
    ((if env.loadThrows then none else store (imageTaskKey taskId)).getD
      (fallbackTask now taskId))
    store

/-- Oracle outcomes of the external steps of one poll attempt of the legacy
poller (src/unnamed/part_004).  There the storage.get, findATXPAccount and
atxpClient steps are not individually guarded, so any throw from them
reaches the single outer catch; filestore covers the whole best-effort
enrichment block (filestore client creation, filestore_write call and
result parsing), whose failure is caught locally at lines 253-265. -/
structure PollEnv4 where
  loadThrows : Bool
  accountOk : Bool
  clientOk : Bool
  statusCall : Except String AsyncStatusResult
  filestore : Except String FileStoreResult
  putThrows : Bool

/-- The outcome produced by the outer catch of the legacy poller: retry in
15s plus an error notice, store untouched. -/
def poll4CatchOutcome (store : TaskStore) (requestId : String)
    (events : List BroadcastEvent) (checked : Bool) : PollOutcome :=
  { store := store
    events := events ++ [BroadcastEvent.imageGenerationError requestId]
    scheduled := [errorRetryDelayMs]
    statusChecked := checked }

/-- pollImageGenerationTask of the legacy server, src/unnamed/part_004
lines 148-349.  The record is keyed by requestId; a missing record or a
record not in the processing state stops polling immediately; there is no
synthesized fallback record.  On completed-with-truthy-url the best-effort
filestore enrichment runs (a storing notice first, then on failure a
warning notice while the original url is kept), the record is persisted as
completed and a completion notice is broadcast; storage.put here is not
guarded, so its throw reaches the outer catch. -/
def pollImageGenerationTask4 (now : Nat) (requestId : String) (env : PollEnv4)
    (store : TaskStore) : PollOutcome :=
  if env.loadThrows then
    poll4CatchOutcome store requestId [] false
  else
    match store (imageTaskKey requestId) with
    | none =>
      { store := store, events := [], scheduled := [], statusChecked := false }
    | some taskData =>
      if taskData.status ≠ TaskStatus.processing then
        { store := store, events := [], scheduled := [], statusChecked := false }
      else if !env.accountOk then
        poll4CatchOutcome store requestId [] false
      else if !env.clientOk then
        poll4CatchOutcome store requestId [] false
      else
        match env.statusCall with
        | Except.error _ => poll4CatchOutcome store requestId [] true
        | Except.ok st =>
          if st.status = "completed" ∧ truthyStr st.url then
            let base : ImageGenerationTask :=
              { taskData with
                  status := TaskStatus.completed
                  imageUrl := st.url
                  updatedAt := now }
            let enriched : ImageGenerationTask × List BroadcastEvent :=
              match env.filestore with
              | Except.ok fr =>
                ({ base with
                     fileName := some fr.filename
                     imageUrl := some fr.url
                     fileId := some (if truthyStr fr.fileId then fr.fileId.getD fr.filename else fr.filename) },
                 [BroadcastEvent.imageGenerationStoring requestId])
              | Except.error _ =>
                (base,
                 [BroadcastEvent.imageGenerationStoring requestId,
                  BroadcastEvent.imageGenerationWarning requestId])
            if env.putThrows then
              poll4CatchOutcome store requestId enriched.2 true
            else
              { store := storePut store (imageTaskKey requestId) enriched.1
                events := enriched.2 ++
                  [BroadcastEvent.imageGenerationCompleted requestId
                    enriched.1.imageUrl enriched.1.fileName]
                scheduled := []
                statusChecked := true }
          else if st.status = "failed" then
            let updated : ImageGenerationTask :=
              { taskData with status := TaskStatus.failed, updatedAt := now }
            if env.putThrows then
              poll4CatchOutcome store requestId [] true
            else
              { store := storePut store (imageTaskKey requestId) updated
                events := [BroadcastEvent.imageGenerationFailed requestId]
                scheduled := []
                statusChecked := true }
          else if st.status = "processing" then
            { store := store
              events := [BroadcastEvent.imageGenerationProgress requestId]
              scheduled := [runningPollDelayMs]
              statusChecked := true }
          else
            { store := store, events := [], scheduled := [], statusChecked := true }

/-- What the generateImage tool execute returned: either an error string
(the catch path or the empty-prompt guard) or the started result carrying
the remote task id. -/
inductive GenerateImageResult where
  | errorMsg (msg : String)
  | started (taskId : String)
deriving DecidableEq

/-- Outcome of one invocation of a generateImage tool: the return value,
the store after the call and the delays of the poll attempts scheduled. -/
structure GenOutcome where
  result : GenerateImageResult
  store : TaskStore
  scheduled : List Nat

/-- Oracle outcomes of the external steps of the current generateImage tool
(src/unnamed/part_002).  connStringResult models getATXPConnectionString
(which can throw when no string is available); accountResult models
findATXPAccount; clientResult models atxpClient creation; createJob models
the combined callTool + getAsyncCreateResult step and yields the remote
task id; putThrows and scheduleThrows model the guarded storage.put and
schedule steps. -/
structure GenEnv2 where
  agentPresent : Bool
  connStringResult : Except String String
  accountResult : Except String Unit
  clientResult : Except String Unit
  createJob : Except String String
  putThrows : Bool
  scheduleThrows : Bool

/-- generateImage of src/unnamed/part_002, lines 26-173.  The whole body is
wrapped in a try/catch that returns an error string; the task record is
built and persisted (keyed by the remote taskId) only after the remote
create call has succeeded, the put failure is swallowed, and the first poll
is scheduled at now + 10000 ms.  genId models the generateId() call that
produces the record id. -/
def generateImage2 (now : Nat) (prompt : String) (genId : String)
    (env : GenEnv2) (store : TaskStore) : GenOutcome :=
  if prompt = "" ∨ jsTrim prompt = "" then
    { result := GenerateImageResult.errorMsg ("Error: Image prompt cannot be empty")
      store := store
      scheduled := [] }
  else
    match env.connStringResult with
    | Except.error e =>
      { result := GenerateImageResult.errorMsg ("Error generating image: " ++ e)
        store := store
        scheduled := [] }
    | Except.ok _ =>
      match env.accountResult with
      | Except.error e =>
        { result := GenerateImageResult.errorMsg ("Error generating image: " ++ e)
          store := store
          scheduled := [] }
      | Except.ok _ =>
        match env.clientResult with
        | Except.error e =>
          { result := GenerateImageResult.errorMsg ("Error generating image: " ++ e)
            store := store
            scheduled := [] }
        | Except.ok _ =>
          match env.createJob with
          | Except.error e =>
            { result := GenerateImageResult.errorMsg ("Error generating image: " ++ e)
              store := store
              scheduled := [] }
          | Except.ok taskId =>
            if env.agentPresent then
              let task : ImageGenerationTask :=
                { id := genId
                  prompt := jsTrim prompt
                  status := TaskStatus.running
                  taskId := some taskId
                  createdAt := now
                  updatedAt := now }
              { result := GenerateImageResult.started taskId
                store :=
                  if env.putThrows then store
                  else storePut store (imageTaskKey taskId) task
                scheduled := if env.scheduleThrows then [] else [startPollDelayMs] }
            else
              { result := GenerateImageResult.started taskId
                store := store
                scheduled := [] }

/-- Oracle outcomes of the external steps of the legacy generateImage tool
(src/src/tools/imageGeneration.ts lines 191-318).  Storage and broadcast
are assumed to work there (their failures are not caught and would reject
the whole invocation). -/
structure GenEnvLegacy where
  connStringResult : Except String String
  accountResult : Except String Unit
  clientResult : Except String Unit
  createJob : Except String String

/-- The catch path of the legacy generateImage: the in-memory record is
marked failed, persisted under the imageTask key for the requestId, and an
error message is returned. -/
def legacyGenFailure (now : Nat) (requestId : String)
    (pendingTask : ImageGenerationTask) (msg : String)
    (store : TaskStore) : GenOutcome :=
  { result :=
      GenerateImageResult.errorMsg ("Failed to start image generation: " ++ msg)
    store :=
      storePut store (imageTaskKey requestId)
        { pendingTask with status := TaskStatus.failed, updatedAt := now }
    scheduled := [] }

/-- generateImage of src/src/tools/imageGeneration.ts lines 191-318.  A
pending record (id = requestId = Date.now().toString()) is built up front
and persisted before the remote create call; the catch persists the record
as failed, so a failure of the remote create call leaves a failed record in
the store.  On success the record is re-persisted as processing with the
remote task id and the first poll is scheduled at now + 5000 ms. -/
def generateImageLegacy (now : Nat) (prompt : String)
    (env : GenEnvLegacy) (store : TaskStore) : GenOutcome :=
  if prompt = "" ∨ jsTrim prompt = "" then
    { result := GenerateImageResult.errorMsg ("Error: Image prompt cannot be empty")
      store := store
      scheduled := [] }
  else
    let requestId : String := toString now
    let pendingTask : ImageGenerationTask :=
      { id := requestId
        prompt := jsTrim prompt
        status := TaskStatus.pending
        createdAt := now
        updatedAt := now }
    match env.connStringResult with
    | Except.error e => legacyGenFailure now requestId pendingTask e store
    | Except.ok _ =>
      match env.accountResult with
      | Except.error e => legacyGenFailure now requestId pendingTask e store
      | Except.ok _ =>
        let store1 : TaskStore := storePut store (imageTaskKey requestId) pendingTask
        match env.clientResult with
        | Except.error e => legacyGenFailure now requestId pendingTask e store1
        | Except.ok _ =>
          match env.createJob with
          | Except.error e => legacyGenFailure now requestId pendingTask e store1
          | Except.ok taskId =>
            let processingTask : ImageGenerationTask :=
              { pendingTask with
                  status := TaskStatus.processing
                  taskId := some taskId
                  updatedAt := now }
            { result := GenerateImageResult.started taskId
              store := storePut store1 (imageTaskKey requestId) processingTask
              scheduled := [legacyStartPollDelayMs] }

/-!
Connection-string utilities of src/src/utils/atxp.ts.  JSON.parse and the
URL constructor are host primitives and are modelled as oracle functions:
jsonParse returns the relevant parsed fields or none for a SyntaxError, and
urlParse returns the value of the connection_token search parameter of the
parsed URL, or the message of the TypeError the URL constructor threw.
-/

/-- The fields of a parsed legacy JSON connection string that
findATXPAccount inspects. -/
structure JsonConnectionFields where
  accountId : Option String := none
  privateKey : Option String := none
  connectionToken : Option String := none
  network : Option String := none
  currency : Option String := none
deriving DecidableEq

/-- The account object assembled by findATXPAccount (src/src/utils/atxp.ts
lines 50-56 and 75-84). -/
structure ATXPAccountModel where
  accountId : Option String
  privateKey : Option String
  connectionToken : Option String
  network : String
  currency : String
deriving DecidableEq

/-- Error message thrown when neither a parameter nor the environment
variable supplies a connection string (atxp.ts lines 23-25). -/
def requiredConnMsg : String :=
  "ATXP connection string is required. Provide it as a parameter or set ATXP_CONNECTION_STRING environment variable."

/-- Error message for an empty connection string (atxp.ts line 35). -/
def emptyConnMsg : String := "ATXP connection string cannot be empty"

/-- Error message for a URL-format string without a connection_token
parameter (atxp.ts lines 45-47). -/
def missingTokenMsg : String :=
  "ATXP connection URL must contain connection_token parameter"

/-- Error message when the parsed JSON has neither accountId nor
connectionToken (atxp.ts lines 64-66). -/
def missingIdMsg : String :=
  "ATXP connection string must contain either accountId or connectionToken"

/-- Error message when the parsed JSON has an accountId but neither a
connectionToken nor a privateKey (atxp.ts lines 70-72). -/
def missingKeyMsg : String :=
  "ATXP connection string must contain privateKey when using accountId format"

/-- Error message replacing a SyntaxError from JSON.parse (atxp.ts
lines 87-89). -/
def notUrlOrJsonMsg : String :=
  "ATXP connection string must be either a valid URL (https://accounts.atxp.ai?connection_token=...) or valid JSON"

/-- JavaScript string-or-default: the || fallback applied to an optional
string field, where undefined and the empty string are falsy. -/
def strOrDefault (v : Option String) (dflt : String) : String :=
  match v with
  | none => dflt
  | some s => if s = "" then dflt else s

/-- getATXPConnectionString of src/src/utils/atxp.ts lines 11-26: prefer
the provided string when it is truthy and trims to something non-empty,
fall back to the ATXP_CONNECTION_STRING environment variable under the same
test, and otherwise throw. -/
def getATXPConnectionString (envVar : Option String)
    (connectionString : Option String) : Except String String :=
  match connectionString with
  | some s =>
    if s ≠ "" ∧ jsTrim s ≠ "" then Except.ok (jsTrim s)
    else
      match envVar with
      | some e =>
        if e ≠ "" ∧ jsTrim e ≠ "" then Except.ok (jsTrim e)
        else Except.error requiredConnMsg
      | none => Except.error requiredConnMsg
  | none =>
    match envVar with
    | some e =>
      if e ≠ "" ∧ jsTrim e ≠ "" then Except.ok (jsTrim e)
      else Except.error requiredConnMsg
    | none => Except.error requiredConnMsg

/-- findATXPAccount of src/src/utils/atxp.ts lines 33-93.  An empty or
whitespace-only string throws; a string starting with the accounts URL
prefix is parsed as a URL and must carry a truthy connection_token (a
TypeError from the URL constructor is rethrown by the catch since it is not
a SyntaxError); any other string is parsed as JSON, a SyntaxError becoming
the combined format message, and the parsed object must carry a truthy
accountId or connectionToken, plus a truthy privateKey when only an
accountId is present. -/
def findATXPAccount (urlParse : String → Except String (Option String))
    (jsonParse : String → Option JsonConnectionFields)
    (connectionString : String) : Except String ATXPAccountModel :=
  if connectionString = "" ∨ jsTrim connectionString = "" then
    Except.error emptyConnMsg
  else if jsStartsWith connectionString ("https://accounts.atxp.ai") then
    match urlParse connectionString with
    | Except.error e => Except.error e
    | Except.ok tok =>
      if truthyStr tok then
        Except.ok
          { accountId := none
            privateKey := none
            connectionToken := tok
            network := "mainnet"
            currency := "ETH" }
      else Except.error missingTokenMsg
  else
    match jsonParse connectionString with
    | none => Except.error notUrlOrJsonMsg
    | some parsed =>
      if !truthyStr parsed.accountId && !truthyStr parsed.connectionToken then
        Except.error missingIdMsg
      else if !truthyStr parsed.connectionToken && !truthyStr parsed.privateKey then
        Except.error missingKeyMsg
      else
        Except.ok
          { accountId := parsed.accountId
            privateKey := parsed.privateKey
            connectionToken := parsed.connectionToken
            network := strOrDefault parsed.network ("mainnet")
            currency := strOrDefault parsed.currency ("ETH") }

/-- The record returned by validateATXPConnectionString. -/
structure ValidationResult where
  isValid : Bool
  error : Option String
deriving DecidableEq

/-- validateATXPConnectionString of src/src/utils/atxp.ts lines 98-111: run
getATXPConnectionString then findATXPAccount on its result inside a
try/catch, returning isValid true on success and isValid false with the
caught message on any failure, and never throwing itself. -/
def validateATXPConnectionString (envVar : Option String)
    (urlParse : String → Except String (Option String))
    (jsonParse : String → Option JsonConnectionFields)
    (connectionString : Option String) : ValidationResult :=
  match getATXPConnectionString envVar connectionString with
  | Except.error e => { isValid := false, error := some e }
  | Except.ok cs =>
    match findATXPAccount urlParse jsonParse cs with
    | Except.error e => { isValid := false, error := some e }
    | Except.ok _ => { isValid := true, error := none }

/-!
Reachability of task stores under the operations of the current code path
(part_002 generateImage and part_003 pollImageGenerationTask) and the
result-url invariant over reachable records.
-/

/-- The imageUrl field is present and non-empty. -/
def imageUrlPresent (t : ImageGenerationTask) : Prop :=
  ∃ u, t.imageUrl = some u ∧ u ≠ ""

/-- The per-record invariant: the result url is present and non-empty
exactly when the record is completed. -/
def taskInvariant (t : ImageGenerationTask) : Prop :=
  imageUrlPresent t ↔ t.status = TaskStatus.completed

/-- Every record held in the store satisfies the per-record invariant. -/
def storeInvariant (s : TaskStore) : Prop :=
  ∀ k t, s k = some t → taskInvariant t

/-- One mutation of the task store by the current code path: an invocation
of the generateImage tool of part_002 or of pollImageGenerationTask of
part_003, with arbitrary time, identifiers and oracle outcomes. -/
inductive StoreStep : TaskStore → TaskStore → Prop where
  | generate (now : Nat) (prompt genId : String) (env : GenEnv2) (s : TaskStore) :
      StoreStep s (generateImage2 now prompt genId env s).store
  | poll (now : Nat) (taskId : String) (env : PollEnv3) (s : TaskStore) :
      StoreStep s (pollImageGenerationTask3 now taskId env s).store

/-- A task store reachable from the empty store by the current code path. -/
def ReachableStore (s : TaskStore) : Prop :=
  Relation.ReflTransGen StoreStep emptyStore s

lemma storeInvariant_empty : storeInvariant emptyStore := by
  intro k t h
  simp [emptyStore] at h

lemma storeInvariant_put {s : TaskStore} {k : String} {v : ImageGenerationTask}
    (hs : storeInvariant s) (hv : taskInvariant v) :
    storeInvariant (storePut s k v) := by
  intro k0 t h
  by_cases hk : k0 = k
  · simp only [storePut, if_pos hk] at h
    cases h
    exact hv
  · simp only [storePut, if_neg hk] at h
    exact hs k0 t h

lemma taskInvariant_not_completed {t : ImageGenerationTask}
    (hnp : ¬ imageUrlPresent t) (h2 : t.status ≠ TaskStatus.completed) :
    taskInvariant t :=
  ⟨fun hp => absurd hp hnp, fun hc => absurd hc h2⟩

lemma not_present_no_url {t : ImageGenerationTask} (h : t.imageUrl = none) :
    ¬ imageUrlPresent t := by
  rintro ⟨u, hu, _⟩
  rw [h] at hu
  cases hu

lemma truthyStr_exists {u : Option String} (h : truthyStr u = true) :
    ∃ v, u = some v ∧ v ≠ "" := by
  cases u with
  | none => simp [truthyStr] at h
  | some v =>
    refine ⟨v, rfl, ?_⟩
    simp only [truthyStr, Bool.not_eq_true', beq_eq_false_iff_ne, ne_eq] at h
    exact h

lemma generateImage2_preserves (now : Nat) (prompt genId : String)
    (env : GenEnv2) (s : TaskStore) (hs : storeInvariant s) :
    storeInvariant (generateImage2 now prompt genId env s).store := by
  unfold generateImage2
  split
  · exact hs
  · split <;> try exact hs
    split <;> try exact hs
    split <;> try exact hs
    split <;> try exact hs
    split
    · split
      · exact hs
      · refine storeInvariant_put hs (taskInvariant_not_completed ?_ ?_)
        · exact not_present_no_url rfl
        · intro h
          cases h
    · exact hs

lemma poll3Body_preserves (now : Nat) (taskId : String) (env : PollEnv3)
    (td : ImageGenerationTask) (s : TaskStore) (hs : storeInvariant s)
    (hnp : td.status = TaskStatus.running → ¬ imageUrlPresent td) :
    storeInvariant (poll3Body now taskId env td s).store := by
  unfold poll3Body
  split
  · exact hs
  next hne =>
    have hrun : td.status = TaskStatus.running := by
      by_contra hc
      exact hne hc
    split
    · exact hs
    split
    · exact hs
    split
    · exact hs
    next st =>
      split
      next hguard =>
        split
        · exact hs
        · refine storeInvariant_put hs ?_
          obtain ⟨v, hv, hv2⟩ := truthyStr_exists hguard.2
          exact ⟨fun _ => rfl, fun _ => ⟨v, by simpa using hv, hv2⟩⟩
      · split
        · split
          · exact hs
          · refine storeInvariant_put hs (taskInvariant_not_completed ?_ ?_)
            · intro hp
              exact hnp hrun (by obtain ⟨u, hu, hu2⟩ := hp; exact ⟨u, by simpa using hu, hu2⟩)
            · intro h
              cases h
        · split
          · exact hs
          · exact hs

lemma pollImageGenerationTask3_preserves (now : Nat) (taskId : String)
    (env : PollEnv3) (s : TaskStore) (hs : storeInvariant s) :
    storeInvariant (pollImageGenerationTask3 now taskId env s).store := by
  unfold pollImageGenerationTask3
  refine poll3Body_preserves now taskId env _ s hs ?_
  rcases hl : (if env.loadThrows then none else s (imageTaskKey taskId)) with _ | t
  · intro _
    simp only [Option.getD_none]
    exact not_present_no_url rfl
  · simp only [Option.getD_some]
    intro hrun hp
    have hmem : s (imageTaskKey taskId) = some t := by
      by_cases hthrow : env.loadThrows
      · rw [if_pos hthrow] at hl
        cases hl
      · rw [if_neg hthrow] at hl
        exact hl
    have hinv := hs _ _ hmem
    have := hinv.mp hp
    rw [this] at hrun
    cases hrun

lemma reachable_storeInvariant (s : TaskStore) (hs : ReachableStore s) :
    storeInvariant s := by
  induction hs with
  | refl => exact storeInvariant_empty
  | tail _ step ih =>
    cases step with
    | generate now prompt genId env =>
      exact generateImage2_preserves now prompt genId env _ ih
    | poll now taskId env =>
      exact pollImageGenerationTask3_preserves now taskId env _ ih

/-!
Claim theorems.
-/

/-- C7 counterexample: the delay before the first poll scheduled by the
current generateImage tool (10000 ms, part_002 line 131) is not strictly
smaller than the steady-state repoll delay (10000 ms, part_003 line 369),
so the claimed strict ordering D0 < D_poll fails on the code. -/
theorem c7_delay_ordering_counterexample :
    ¬ startPollDelayMs < runningPollDelayMs := by
  decide

/-- C7 (amended): the delays satisfy only the non-strict ordering
D0 ≤ D_poll ≤ D_err: in the current code D0 = D_poll = 10000 < D_err =
15000, while the legacy generateImage start delay of 5000 ms does satisfy
the strict ordering against D_poll. -/
theorem c7_delay_ordering :
    startPollDelayMs = runningPollDelayMs ∧
    runningPollDelayMs < errorRetryDelayMs ∧
    legacyStartPollDelayMs < runningPollDelayMs := by
  decide

/-- C3: over every task store reachable from the empty store by the current
code path (generateImage of part_002 and pollImageGenerationTask of
part_003, under arbitrary oracle outcomes), every stored record has a
present, non-empty imageUrl exactly when its status is completed. -/
theorem c3_resultUrl_iff_completed (s : TaskStore) (hs : ReachableStore s)
    (k : String) (t : ImageGenerationTask) (hk : s k = some t) :
    imageUrlPresent t ↔ t.status = TaskStatus.completed :=
  reachable_storeInvariant s hs k t hk

/-- C3 witness: the store reached by one successful generateImage call
holds the created running record, and the invariant instantiates to it. -/
theorem c3_resultUrl_iff_completed_witness :
    (generateImage2 0 ("cat") ("g1")
        ⟨true, Except.ok ("cs"), Except.ok Unit.unit, Except.ok Unit.unit,
          Except.ok ("t1"), false, false⟩ emptyStore).store (imageTaskKey ("t1")) =
      some { id := "g1", prompt := "cat", status := TaskStatus.running,
             taskId := some ("t1"), createdAt := 0, updatedAt := 0 } ∧
    (imageUrlPresent
        { id := "g1", prompt := "cat", status := TaskStatus.running,
          taskId := some ("t1"), createdAt := 0, updatedAt := 0 } ↔
      ImageGenerationTask.status
        { id := "g1", prompt := "cat", status := TaskStatus.running,
          taskId := some ("t1"), createdAt := 0, updatedAt := 0 } =
        TaskStatus.completed) := by
  refine ⟨by decide, ?_⟩
  exact c3_resultUrl_iff_completed _
    (Relation.ReflTransGen.single
      (StoreStep.generate 0 ("cat") ("g1")
        ⟨true, Except.ok ("cs"), Except.ok Unit.unit, Except.ok Unit.unit,
          Except.ok ("t1"), false, false⟩ emptyStore))
    (imageTaskKey ("t1")) _ (by decide)

/-- C1 counterexample: the guarantees of the claim do not hold for every
task whose persisted record is non-running.  When the storage read throws,
part_003 falls back to a synthesized running record and proceeds: here the
persisted record is completed, yet the poll attempt invokes the remote
status operation, emits a progress notification and schedules another poll
attempt. -/
theorem c1_terminal_poll_counterexample :
    (storePut emptyStore (imageTaskKey ("t1"))
        { id := "t1", prompt := "p", status := TaskStatus.completed,
          imageUrl := some ("https://img.example/1.png"), createdAt := 0,
          updatedAt := 0 }) (imageTaskKey ("t1")) =
      some { id := "t1", prompt := "p", status := TaskStatus.completed,
             imageUrl := some ("https://img.example/1.png"), createdAt := 0,
             updatedAt := 0 } ∧
    (pollImageGenerationTask3 5 ("t1")
        ⟨true, true, true, Except.ok ⟨"running", none⟩, false⟩
        (storePut emptyStore (imageTaskKey ("t1"))
          { id := "t1", prompt := "p", status := TaskStatus.completed,
            imageUrl := some ("https://img.example/1.png"), createdAt := 0,
            updatedAt := 0 })).statusChecked = true ∧
    (pollImageGenerationTask3 5 ("t1")
        ⟨true, true, true, Except.ok ⟨"running", none⟩, false⟩
        (storePut emptyStore (imageTaskKey ("t1"))
          { id := "t1", prompt := "p", status := TaskStatus.completed,
            imageUrl := some ("https://img.example/1.png"), createdAt := 0,
            updatedAt := 0 })).scheduled = [runningPollDelayMs] ∧
    (pollImageGenerationTask3 5 ("t1")
        ⟨true, true, true, Except.ok ⟨"running", none⟩, false⟩
        (storePut emptyStore (imageTaskKey ("t1"))
          { id := "t1", prompt := "p", status := TaskStatus.completed,
            imageUrl := some ("https://img.example/1.png"), createdAt := 0,
            updatedAt := 0 })).events =
      [BroadcastEvent.imageGenerationProgress ("t1")] := by
  refine ⟨by decide, by decide, by decide, by decide⟩

/-- C1 (amended): when the storage read succeeds and returns a record that
is not in the poller's in-progress state (running for the current poller of
part_003, processing for the legacy poller of part_004, so in particular
for the terminal states completed and failed), pollImageGenerationTask
returns with the store unchanged, without invoking the remote status
operation, without emitting any notification and without scheduling any
further poll attempt.  The amendment adds the condition that the storage
read succeeds: when it throws, part_003 proceeds on a synthesized running
record (see the counterexample). -/
theorem c1_terminal_poll_is_noop (now : Nat) (taskId : String)
    (env3 : PollEnv3) (env4 : PollEnv4) (store : TaskStore)
    (t : ImageGenerationTask)
    (hload3 : env3.loadThrows = false) (hload4 : env4.loadThrows = false)
    (ht : store (imageTaskKey taskId) = some t)
    (hrun : t.status ≠ TaskStatus.running)
    (hproc : t.status ≠ TaskStatus.processing) :
    pollImageGenerationTask3 now taskId env3 store =
      { store := store, events := [], scheduled := [], statusChecked := false } ∧
    pollImageGenerationTask4 now taskId env4 store =
      { store := store, events := [], scheduled := [], statusChecked := false } := by
  constructor
  · unfold pollImageGenerationTask3 poll3Body
    rw [hload3]
    simp only [Bool.false_eq_true, if_false, ht, Option.getD_some, if_pos hrun]
  · unfold pollImageGenerationTask4
    rw [hload4]
    simp only [Bool.false_eq_true, if_false, ht, if_pos hproc]

/-- C1 witness: a concrete completed record is a no-op for both pollers
when the storage read succeeds. -/
theorem c1_terminal_poll_is_noop_witness :
    pollImageGenerationTask3 5 ("t1")
        ⟨false, true, true, Except.ok ⟨"running", none⟩, false⟩
        (storePut emptyStore (imageTaskKey ("t1"))
          { id := "t1", prompt := "p", status := TaskStatus.completed,
            imageUrl := some ("https://img.example/1.png"), createdAt := 0,
            updatedAt := 0 }) =
      { store :=
          storePut emptyStore (imageTaskKey ("t1"))
            { id := "t1", prompt := "p", status := TaskStatus.completed,
              imageUrl := some ("https://img.example/1.png"), createdAt := 0,
              updatedAt := 0 }
        events := [], scheduled := [], statusChecked := false } ∧
    pollImageGenerationTask4 5 ("t1")
        ⟨false, true, true, Except.ok ⟨"processing", none⟩,
          Except.ok ⟨"f.png", "https://store.example/f.png", none⟩, false⟩
        (storePut emptyStore (imageTaskKey ("t1"))
          { id := "t1", prompt := "p", status := TaskStatus.completed,
            imageUrl := some ("https://img.example/1.png"), createdAt := 0,
            updatedAt := 0 }) =
      { store :=
          storePut emptyStore (imageTaskKey ("t1"))
            { id := "t1", prompt := "p", status := TaskStatus.completed,
              imageUrl := some ("https://img.example/1.png"), createdAt := 0,
              updatedAt := 0 }
        events := [], scheduled := [], statusChecked := false } :=
  c1_terminal_poll_is_noop 5 ("t1")
    ⟨false, true, true, Except.ok ⟨"running", none⟩, false⟩
    ⟨false, true, true, Except.ok ⟨"processing", none⟩,
      Except.ok ⟨"f.png", "https://store.example/f.png", none⟩, false⟩
    (storePut emptyStore (imageTaskKey ("t1"))
      { id := "t1", prompt := "p", status := TaskStatus.completed,
        imageUrl := some ("https://img.example/1.png"), createdAt := 0,
        updatedAt := 0 })
    { id := "t1", prompt := "p", status := TaskStatus.completed,
      imageUrl := some ("https://img.example/1.png"), createdAt := 0,
      updatedAt := 0 }
    rfl rfl (by decide) (by decide) (by decide)

/-- C2 counterexample: a retry is not always scheduled when a transport
step of the status check fails.  When creating the image client fails
(caught at part_003 lines 258-261), the poll attempt returns silently: the
task stays running, but no retry is scheduled and no retrying notification
is emitted. -/
theorem c2_retry_counterexample :
    (pollImageGenerationTask3 5 ("t2")
        ⟨false, true, false, Except.error ("network down"), false⟩
        (storePut emptyStore (imageTaskKey ("t2"))
          { id := "t2", prompt := "p", status := TaskStatus.running,
            createdAt := 0, updatedAt := 0 })).scheduled = [] ∧
    (pollImageGenerationTask3 5 ("t2")
        ⟨false, true, false, Except.error ("network down"), false⟩
        (storePut emptyStore (imageTaskKey ("t2"))
          { id := "t2", prompt := "p", status := TaskStatus.running,
            createdAt := 0, updatedAt := 0 })).events = [] ∧
    (pollImageGenerationTask3 5 ("t2")
        ⟨false, true, false, Except.error ("network down"), false⟩
        (storePut emptyStore (imageTaskKey ("t2"))
          { id := "t2", prompt := "p", status := TaskStatus.running,
            createdAt := 0, updatedAt := 0 })).statusChecked = false := by
  refine ⟨by decide, by decide, by decide⟩

/-- C2 (amended): for a running task, a failure of the remote status call
itself (after the image client was created) never changes the persisted
state, always schedules a retry after 15000 ms and emits a transient
retrying notification; but when creating the image client fails, the poll
attempt instead returns silently: the task also stays running, yet no retry
is scheduled and no notification is emitted. -/
theorem c2_status_failure_schedules_retry (now : Nat) (taskId : String)
    (env : PollEnv3) (store : TaskStore) (t : ImageGenerationTask)
    (hload : env.loadThrows = false)
    (ht : store (imageTaskKey taskId) = some t)
    (hrun : t.status = TaskStatus.running)
    (hacct : env.accountOk = true) :
    (env.clientOk = true → ∀ e, env.statusCall = Except.error e →
      pollImageGenerationTask3 now taskId env store =
        { store := store
          events := [BroadcastEvent.imageGenerationError taskId]
          scheduled := [errorRetryDelayMs]
          statusChecked := true }) ∧
    (env.clientOk = false →
      pollImageGenerationTask3 now taskId env store =
        { store := store, events := [], scheduled := [], statusChecked := false }) := by
  constructor
  · intro hclient e hcall
    unfold pollImageGenerationTask3 poll3Body
    rw [hload]
    simp only [Bool.false_eq_true, if_false, ht, Option.getD_some, hrun, hacct, hclient, hcall,
      Bool.not_true, ne_eq, not_true_eq_false, if_false]
  · intro hclient
    unfold pollImageGenerationTask3 poll3Body
    rw [hload]
    simp only [Bool.false_eq_true, if_false, ht, Option.getD_some, hrun, hacct, hclient,
      Bool.not_true, Bool.not_false, ne_eq, not_true_eq_false, if_true]

/-- C2 witness: concrete instances of both conjuncts of the amended
claim. -/
theorem c2_status_failure_schedules_retry_witness :
    pollImageGenerationTask3 5 ("t2")
        ⟨false, true, true, Except.error ("network down"), false⟩
        (storePut emptyStore (imageTaskKey ("t2"))
          { id := "t2", prompt := "p", status := TaskStatus.running,
            createdAt := 0, updatedAt := 0 }) =
      { store :=
          storePut emptyStore (imageTaskKey ("t2"))
            { id := "t2", prompt := "p", status := TaskStatus.running,
              createdAt := 0, updatedAt := 0 }
        events := [BroadcastEvent.imageGenerationError ("t2")]
        scheduled := [errorRetryDelayMs]
        statusChecked := true } :=
  (c2_status_failure_schedules_retry 5 ("t2")
      ⟨false, true, true, Except.error ("network down"), false⟩
      (storePut emptyStore (imageTaskKey ("t2"))
        { id := "t2", prompt := "p", status := TaskStatus.running,
          createdAt := 0, updatedAt := 0 })
      { id := "t2", prompt := "p", status := TaskStatus.running,
        createdAt := 0, updatedAt := 0 }
      rfl (by decide) (by decide) rfl).1 rfl ("network down") rfl

/-- C8 counterexample: on a poll that finds the remote job still running,
the record is not re-persisted and its updatedAt timestamp is not bumped.
Concretely, with the stored record carrying updatedAt 0 and the poll
running at time 5, the record after the poll still carries updatedAt 0. -/
theorem c8_running_poll_counterexample :
    (pollImageGenerationTask3 5 ("t8")
        ⟨false, true, true, Except.ok ⟨"running", none⟩, false⟩
        (storePut emptyStore (imageTaskKey ("t8"))
          { id := "t8", prompt := "p", status := TaskStatus.running,
            createdAt := 0, updatedAt := 0 })).store (imageTaskKey ("t8")) =
      some { id := "t8", prompt := "p", status := TaskStatus.running,
             createdAt := 0, updatedAt := 0 } ∧
    (5 : Nat) ≠ 0 := by
  refine ⟨by decide, by decide⟩

/-- C8 (amended): on a successful status call reporting running, the task
store is left entirely untouched (so the task trivially remains running,
but updatedAt is not bumped and nothing is re-persisted), a
still-in-progress notification is emitted, and another poll attempt is
scheduled after D_poll = 10000 ms. -/
theorem c8_running_poll_reschedules (now : Nat) (taskId : String)
    (env : PollEnv3) (store : TaskStore) (t : ImageGenerationTask)
    (u : Option String)
    (hload : env.loadThrows = false)
    (ht : store (imageTaskKey taskId) = some t)
    (hrun : t.status = TaskStatus.running)
    (hacct : env.accountOk = true) (hclient : env.clientOk = true)
    (hcall : env.statusCall = Except.ok ⟨"running", u⟩) :
    pollImageGenerationTask3 now taskId env store =
      { store := store
        events := [BroadcastEvent.imageGenerationProgress taskId]
        scheduled := [runningPollDelayMs]
        statusChecked := true } := by
  unfold pollImageGenerationTask3 poll3Body
  rw [hload]
  simp only [Bool.false_eq_true, if_false, ht, Option.getD_some, hrun, hacct, hclient, hcall,
    Bool.not_true, ne_eq, not_true_eq_false, if_false]
  rw [if_neg (fun h => absurd h.1 (by decide)), if_neg (by decide), if_pos trivial]

/-- C8 witness: a concrete instance of the amended running-poll claim. -/
theorem c8_running_poll_reschedules_witness :
    pollImageGenerationTask3 5 ("t8")
        ⟨false, true, true, Except.ok ⟨"running", none⟩, false⟩
        (storePut emptyStore (imageTaskKey ("t8"))
          { id := "t8", prompt := "p", status := TaskStatus.running,
            createdAt := 0, updatedAt := 0 }) =
      { store :=
          storePut emptyStore (imageTaskKey ("t8"))
            { id := "t8", prompt := "p", status := TaskStatus.running,
              createdAt := 0, updatedAt := 0 }
        events := [BroadcastEvent.imageGenerationProgress ("t8")]
        scheduled := [runningPollDelayMs]
        statusChecked := true } :=
  c8_running_poll_reschedules 5 ("t8")
    ⟨false, true, true, Except.ok ⟨"running", none⟩, false⟩
    (storePut emptyStore (imageTaskKey ("t8"))
      { id := "t8", prompt := "p", status := TaskStatus.running,
        createdAt := 0, updatedAt := 0 })
    { id := "t8", prompt := "p", status := TaskStatus.running,
      createdAt := 0, updatedAt := 0 }
    none rfl (by decide) (by decide) rfl rfl rfl

/-- C9: when the remote status call succeeds and reports completed but the
result url is absent or empty (falsy), both pollers fall through every
branch: the store is unchanged, no notification is emitted and no further
poll attempt is scheduled, so the task stays running (or processing) and is
never polled again. -/
theorem c9_completed_without_url_is_silent (now : Nat) (taskId : String)
    (env3 : PollEnv3) (env4 : PollEnv4) (store3 store4 : TaskStore)
    (t3 t4 : ImageGenerationTask) (u : Option String)
    (h1 : env3.loadThrows = false)
    (h2 : store3 (imageTaskKey taskId) = some t3)
    (h3 : t3.status = TaskStatus.running)
    (h4 : env3.accountOk = true) (h5 : env3.clientOk = true)
    (h6 : env3.statusCall = Except.ok ⟨"completed", u⟩)
    (hu : truthyStr u = false)
    (g1 : env4.loadThrows = false)
    (g2 : store4 (imageTaskKey taskId) = some t4)
    (g3 : t4.status = TaskStatus.processing)
    (g4 : env4.accountOk = true) (g5 : env4.clientOk = true)
    (g6 : env4.statusCall = Except.ok ⟨"completed", u⟩) :
    pollImageGenerationTask3 now taskId env3 store3 =
      { store := store3, events := [], scheduled := [], statusChecked := true } ∧
    pollImageGenerationTask4 now taskId env4 store4 =
      { store := store4, events := [], scheduled := [], statusChecked := true } := by
  constructor
  · unfold pollImageGenerationTask3 poll3Body
    rw [h1]
    simp only [Bool.false_eq_true, if_false, h2, Option.getD_some, h3, h4, h5, h6,
      Bool.not_true, ne_eq, not_true_eq_false, if_false]
    rw [if_neg (fun h => Bool.false_ne_true (hu ▸ h.2)), if_neg (by decide),
      if_neg (by decide)]
  · unfold pollImageGenerationTask4
    rw [g1]
    simp only [Bool.false_eq_true, if_false, g2, g3, g4, g5, g6,
      Bool.not_true, ne_eq, not_true_eq_false, if_false]
    rw [if_neg (fun h => Bool.false_ne_true (hu ▸ h.2)), if_neg (by decide),
      if_neg (by decide)]

/-- C9 witness: a concrete completed status with an empty url leaves both
pollers silent. -/
theorem c9_completed_without_url_is_silent_witness :
    pollImageGenerationTask3 5 ("t9")
        ⟨false, true, true, Except.ok ⟨"completed", some ("")⟩, false⟩
        (storePut emptyStore (imageTaskKey ("t9"))
          { id := "t9", prompt := "p", status := TaskStatus.running,
            createdAt := 0, updatedAt := 0 }) =
      { store :=
          storePut emptyStore (imageTaskKey ("t9"))
            { id := "t9", prompt := "p", status := TaskStatus.running,
              createdAt := 0, updatedAt := 0 }
        events := [], scheduled := [], statusChecked := true } ∧
    pollImageGenerationTask4 5 ("t9")
        ⟨false, true, true, Except.ok ⟨"completed", some ("")⟩,
          Except.ok ⟨"f.png", "https://store.example/f.png", none⟩, false⟩
        (storePut emptyStore (imageTaskKey ("t9"))
          { id := "t9", prompt := "p", status := TaskStatus.processing,
            createdAt := 0, updatedAt := 0 }) =
      { store :=
          storePut emptyStore (imageTaskKey ("t9"))
            { id := "t9", prompt := "p", status := TaskStatus.processing,
              createdAt := 0, updatedAt := 0 }
        events := [], scheduled := [], statusChecked := true } :=
  c9_completed_without_url_is_silent 5 ("t9")
    ⟨false, true, true, Except.ok ⟨"completed", some ("")⟩, false⟩
    ⟨false, true, true, Except.ok ⟨"completed", some ("")⟩,
      Except.ok ⟨"f.png", "https://store.example/f.png", none⟩, false⟩
    (storePut emptyStore (imageTaskKey ("t9"))
      { id := "t9", prompt := "p", status := TaskStatus.running,
        createdAt := 0, updatedAt := 0 })
    (storePut emptyStore (imageTaskKey ("t9"))
      { id := "t9", prompt := "p", status := TaskStatus.processing,
        createdAt := 0, updatedAt := 0 })
    { id := "t9", prompt := "p", status := TaskStatus.running,
      createdAt := 0, updatedAt := 0 }
    { id := "t9", prompt := "p", status := TaskStatus.processing,
      createdAt := 0, updatedAt := 0 }
    (some (""))
    rfl (by decide) (by decide) rfl rfl rfl (by decide)
    rfl (by decide) (by decide) rfl rfl rfl

lemma poll3Body_statusChecked (now : Nat) (taskId : String) (env : PollEnv3)
    (td : ImageGenerationTask) (s : TaskStore)
    (hrun : td.status = TaskStatus.running)
    (ha : env.accountOk = true) (hc : env.clientOk = true) :
    (poll3Body now taskId env td s).statusChecked = true := by
  unfold poll3Body
  rw [if_neg (by simp [hrun]), ha, hc]
  simp only [Bool.not_true, Bool.false_eq_true, if_false]
  rcases h : env.statusCall with e | st
  · simp only [h]
  · simp only [h]
    split
    · rfl
    · split
      · rfl
      · split <;> rfl

/-- C6 counterexample: in the legacy poller of part_004, a poll attempt
whose storage read returns no record aborts instead of proceeding: no
synthesized record is used, the remote status operation is never invoked
and nothing is scheduled. -/
theorem c6_load_fallback_counterexample :
    emptyStore (imageTaskKey ("t6")) = none ∧
    pollImageGenerationTask4 3 ("t6")
        ⟨false, true, true, Except.ok ⟨"processing", none⟩,
          Except.ok ⟨"f.png", "https://store.example/f.png", none⟩, false⟩
        emptyStore =
      { store := emptyStore, events := [], scheduled := [], statusChecked := false } := by
  exact ⟨rfl, rfl⟩

/-- C6 (amended): in the current poller of part_003, a poll attempt whose
storage read throws or returns no record does not abort: it proceeds on the
synthesized minimal running record and reaches the remote status check
(provided account resolution and client creation succeed, whose failures
are separate error paths).  In the legacy poller of part_004, by contrast,
an absent record stops the attempt with no status check, no notification
and no scheduling, while a storage read that throws reaches the outer
catch, which schedules a retry after 15000 ms and broadcasts an error
notice without any status check. -/
theorem c6_load_failure_fallback (now : Nat) (taskId : String)
    (env3 : PollEnv3) (env4 env4t : PollEnv4)
    (store3 store4 store4t : TaskStore)
    (hload : env3.loadThrows = true ∨ store3 (imageTaskKey taskId) = none)
    (hacct : env3.accountOk = true) (hclient : env3.clientOk = true)
    (g1 : env4.loadThrows = false)
    (g2 : store4 (imageTaskKey taskId) = none)
    (k1 : env4t.loadThrows = true) :
    (pollImageGenerationTask3 now taskId env3 store3).statusChecked = true ∧
    pollImageGenerationTask4 now taskId env4 store4 =
      { store := store4, events := [], scheduled := [], statusChecked := false } ∧
    pollImageGenerationTask4 now taskId env4t store4t =
      { store := store4t
        events := [BroadcastEvent.imageGenerationError taskId]
        scheduled := [errorRetryDelayMs]
        statusChecked := false } := by
  refine ⟨?_, ?_, ?_⟩
  · unfold pollImageGenerationTask3
    have hnone : (if env3.loadThrows then none else store3 (imageTaskKey taskId)) =
        (none : Option ImageGenerationTask) := by
      rcases hload with h | h
      · rw [h]
        simp
      · rcases hb : env3.loadThrows with _ | _
        · simpa [hb] using h
        · simp
    rw [hnone]
    exact poll3Body_statusChecked now taskId env3 _ store3 rfl hacct hclient
  · unfold pollImageGenerationTask4
    rw [g1]
    simp only [Bool.false_eq_true, if_false, g2]
  · unfold pollImageGenerationTask4
    rw [k1]
    simp [poll4CatchOutcome]

/-- C6 witness: a concrete storage-read failure proceeds to the status
check in the current poller, while the legacy poller stops on an absent
record and goes to the error-retry path on a thrown read. -/
theorem c6_load_failure_fallback_witness :
    (pollImageGenerationTask3 3 ("t6")
        ⟨true, true, true, Except.ok ⟨"running", none⟩, false⟩
        emptyStore).statusChecked = true ∧
    pollImageGenerationTask4 3 ("t6")
        ⟨false, true, true, Except.ok ⟨"processing", none⟩,
          Except.ok ⟨"f.png", "https://store.example/f.png", none⟩, false⟩
        (storePut emptyStore (imageTaskKey ("other"))
          { id := "other", prompt := "p", status := TaskStatus.processing,
            createdAt := 0, updatedAt := 0 }) =
      { store :=
          storePut emptyStore (imageTaskKey ("other"))
            { id := "other", prompt := "p", status := TaskStatus.processing,
              createdAt := 0, updatedAt := 0 }
        events := [], scheduled := [], statusChecked := false } ∧
    pollImageGenerationTask4 3 ("t6")
        ⟨true, true, true, Except.ok ⟨"processing", none⟩,
          Except.ok ⟨"f.png", "https://store.example/f.png", none⟩, false⟩
        emptyStore =
      { store := emptyStore
        events := [BroadcastEvent.imageGenerationError ("t6")]
        scheduled := [errorRetryDelayMs]
        statusChecked := false } :=
  c6_load_failure_fallback 3 ("t6")
    ⟨true, true, true, Except.ok ⟨"running", none⟩, false⟩
    ⟨false, true, true, Except.ok ⟨"processing", none⟩,
      Except.ok ⟨"f.png", "https://store.example/f.png", none⟩, false⟩
    ⟨true, true, true, Except.ok ⟨"processing", none⟩,
      Except.ok ⟨"f.png", "https://store.example/f.png", none⟩, false⟩
    emptyStore
    (storePut emptyStore (imageTaskKey ("other"))
      { id := "other", prompt := "p", status := TaskStatus.processing,
        createdAt := 0, updatedAt := 0 })
    emptyStore
    (Or.inl rfl) rfl rfl rfl (by decide) rfl

/-- C5 counterexample: the claim does not hold for every poll attempt in
which the remote status is completed with a url and the filestore step
fails.  The storage.put of part_004 line 268 is not guarded: when it
throws, the outer catch schedules a retry after 15000 ms and the record is
left as processing, so the task is not persisted as completed and a
further poll attempt is scheduled. -/
theorem c5_enrichment_put_failure_counterexample :
    (pollImageGenerationTask4 5 ("r5x")
        ⟨false, true, true,
          Except.ok ⟨"completed", some ("https://img.example/5.png")⟩,
          Except.error ("filestore down"), true⟩
        (storePut emptyStore (imageTaskKey ("r5x"))
          { id := "r5x", prompt := "p", status := TaskStatus.processing,
            createdAt := 0, updatedAt := 0 })).scheduled = [errorRetryDelayMs] ∧
    (pollImageGenerationTask4 5 ("r5x")
        ⟨false, true, true,
          Except.ok ⟨"completed", some ("https://img.example/5.png")⟩,
          Except.error ("filestore down"), true⟩
        (storePut emptyStore (imageTaskKey ("r5x"))
          { id := "r5x", prompt := "p", status := TaskStatus.processing,
            createdAt := 0, updatedAt := 0 })).store (imageTaskKey ("r5x")) =
      some { id := "r5x", prompt := "p", status := TaskStatus.processing,
             createdAt := 0, updatedAt := 0 } := by
  refine ⟨by decide, by decide⟩

/-- C5 (amended): in the legacy poller of part_004, when the remote status
is completed with a non-empty url and the best-effort filestore step
fails, then provided the subsequent storage.put succeeds the task is
persisted as completed with the original result url preserved, a
degraded-success warning notice is emitted (after the storing notice and
before the completion notice, with no failure notice), and no further poll
attempt is scheduled; when the storage.put itself throws, the outer catch
instead schedules a retry after 15000 ms and the completed record is not
persisted. -/
theorem c5_enrichment_failure_keeps_completed (now : Nat) (requestId : String)
    (env : PollEnv4) (store : TaskStore) (t : ImageGenerationTask)
    (u e : String)
    (hload : env.loadThrows = false)
    (ht : store (imageTaskKey requestId) = some t)
    (hproc : t.status = TaskStatus.processing)
    (hacct : env.accountOk = true) (hclient : env.clientOk = true)
    (hstat : env.statusCall = Except.ok ⟨"completed", some u⟩) (hu : u ≠ "")
    (hfs : env.filestore = Except.error e) :
    (env.putThrows = false →
      pollImageGenerationTask4 now requestId env store =
        { store :=
            storePut store (imageTaskKey requestId)
              { t with
                  status := TaskStatus.completed
                  imageUrl := some u
                  updatedAt := now }
          events := [BroadcastEvent.imageGenerationStoring requestId,
                     BroadcastEvent.imageGenerationWarning requestId,
                     BroadcastEvent.imageGenerationCompleted requestId (some u) t.fileName]
          scheduled := []
          statusChecked := true }) ∧
    (env.putThrows = true →
      pollImageGenerationTask4 now requestId env store =
        { store := store
          events := [BroadcastEvent.imageGenerationStoring requestId,
                     BroadcastEvent.imageGenerationWarning requestId,
                     BroadcastEvent.imageGenerationError requestId]
          scheduled := [errorRetryDelayMs]
          statusChecked := true }) := by
  constructor
  · intro hput
    unfold pollImageGenerationTask4
    rw [hload]
    simp only [Bool.false_eq_true, if_false, ht, hproc, hacct, hclient, hstat, hfs, hput,
      Bool.not_true, ne_eq, not_true_eq_false, if_false]
    rw [if_pos (by simp [truthyStr, hu])]
    simp
  · intro hput
    unfold pollImageGenerationTask4
    rw [hload]
    simp only [Bool.false_eq_true, if_false, ht, hproc, hacct, hclient, hstat, hfs, hput,
      Bool.not_true, ne_eq, not_true_eq_false, if_false]
    rw [if_pos (by simp [truthyStr, hu])]
    simp [poll4CatchOutcome]

/-- C5 witness: a concrete poll with a failing filestore step and a
working storage.put persists the completed record with the original url
and emits the degraded notices. -/
theorem c5_enrichment_failure_keeps_completed_witness :
    pollImageGenerationTask4 5 ("r5")
        ⟨false, true, true, Except.ok ⟨"completed", some ("https://img.example/5.png")⟩,
          Except.error ("filestore down"), false⟩
        (storePut emptyStore (imageTaskKey ("r5"))
          { id := "r5", prompt := "p", status := TaskStatus.processing,
            createdAt := 0, updatedAt := 0 }) =
      { store :=
          storePut
            (storePut emptyStore (imageTaskKey ("r5"))
              { id := "r5", prompt := "p", status := TaskStatus.processing,
                createdAt := 0, updatedAt := 0 })
            (imageTaskKey ("r5"))
            { id := "r5", prompt := "p", status := TaskStatus.completed,
              imageUrl := some ("https://img.example/5.png"), createdAt := 0,
              updatedAt := 5 }
        events := [BroadcastEvent.imageGenerationStoring ("r5"),
                   BroadcastEvent.imageGenerationWarning ("r5"),
                   BroadcastEvent.imageGenerationCompleted ("r5")
                     (some ("https://img.example/5.png")) none]
        scheduled := []
        statusChecked := true } :=
  (c5_enrichment_failure_keeps_completed 5 ("r5")
    ⟨false, true, true, Except.ok ⟨"completed", some ("https://img.example/5.png")⟩,
      Except.error ("filestore down"), false⟩
    (storePut emptyStore (imageTaskKey ("r5"))
      { id := "r5", prompt := "p", status := TaskStatus.processing,
        createdAt := 0, updatedAt := 0 })
    { id := "r5", prompt := "p", status := TaskStatus.processing,
      createdAt := 0, updatedAt := 0 }
    ("https://img.example/5.png") ("filestore down")
    rfl (by decide) (by decide) rfl rfl rfl (by decide) rfl).1 rfl

/-- C4 counterexample: in the legacy generateImage of
src/src/tools/imageGeneration.ts, a failing remote create call does leave
partial state: the catch persists the record as failed under the imageTask
key for the requestId, so the store is not left as it was (it was empty
before the invocation). -/
theorem c4_create_failure_counterexample :
    emptyStore (imageTaskKey ("7")) = none ∧
    (generateImageLegacy 7 ("a red bicycle")
        ⟨Except.ok ("cs"), Except.ok Unit.unit, Except.ok Unit.unit,
          Except.error ("RemoteUnavailable")⟩ emptyStore).store
      (imageTaskKey ("7")) =
      some { id := "7", prompt := "a red bicycle", status := TaskStatus.failed,
             createdAt := 7, updatedAt := 7 } ∧
    (generateImageLegacy 7 ("a red bicycle")
        ⟨Except.ok ("cs"), Except.ok Unit.unit, Except.ok Unit.unit,
          Except.error ("RemoteUnavailable")⟩ emptyStore).result =
      GenerateImageResult.errorMsg
        ("Failed to start image generation: RemoteUnavailable") := by
  refine ⟨rfl, by decide, by decide⟩

/-- C4 (amended): in the current generateImage of src/unnamed/part_002,
whenever the remote create call fails the invocation returns an error
string, persists nothing and schedules nothing, leaving the store exactly
as before; the legacy variant of src/src/tools/imageGeneration.ts instead
persists a pending record before the remote call and re-persists it as
failed in its catch, so there the claim fails (see the counterexample). -/
theorem c4_create_failure_leaves_no_state (now : Nat) (prompt genId : String)
    (env : GenEnv2) (store : TaskStore) (e : String)
    (h : env.createJob = Except.error e) :
    (generateImage2 now prompt genId env store).store = store ∧
    (generateImage2 now prompt genId env store).scheduled = [] ∧
    ∃ m, (generateImage2 now prompt genId env store).result =
      GenerateImageResult.errorMsg m := by
  unfold generateImage2
  rw [h]
  split
  · exact ⟨rfl, rfl, _, rfl⟩
  · split
    · exact ⟨rfl, rfl, _, rfl⟩
    · split
      · exact ⟨rfl, rfl, _, rfl⟩
      · split
        · exact ⟨rfl, rfl, _, rfl⟩
        · exact ⟨rfl, rfl, _, rfl⟩

/-- C4 witness: a concrete failing create call leaves the empty store empty
and schedules nothing. -/
theorem c4_create_failure_leaves_no_state_witness :
    (generateImage2 0 ("cat") ("g1")
        ⟨true, Except.ok ("cs"), Except.ok Unit.unit, Except.ok Unit.unit,
          Except.error ("RemoteUnavailable"), false, false⟩ emptyStore).store =
      emptyStore ∧
    (generateImage2 0 ("cat") ("g1")
        ⟨true, Except.ok ("cs"), Except.ok Unit.unit, Except.ok Unit.unit,
          Except.error ("RemoteUnavailable"), false, false⟩ emptyStore).scheduled =
      [] :=
  ⟨(c4_create_failure_leaves_no_state 0 ("cat") ("g1")
      ⟨true, Except.ok ("cs"), Except.ok Unit.unit, Except.ok Unit.unit,
        Except.error ("RemoteUnavailable"), false, false⟩ emptyStore
      ("RemoteUnavailable") rfl).1,
   (c4_create_failure_leaves_no_state 0 ("cat") ("g1")
      ⟨true, Except.ok ("cs"), Except.ok Unit.unit, Except.ok Unit.unit,
        Except.error ("RemoteUnavailable"), false, false⟩ emptyStore
      ("RemoteUnavailable") rfl).2.1⟩

/-- C10: validateATXPConnectionString is total (every input, including an
absent, empty, whitespace-only, malformed-URL or malformed-JSON connection
string, yields a result record rather than a thrown error, which the
embedding expresses by returning a plain ValidationResult for all oracle
outcomes); it reports isValid true exactly when getATXPConnectionString
succeeds and findATXPAccount succeeds on the resolved string, and otherwise
isValid false together with the error message of the first failing step. -/
theorem c10_validate_reports_first_failure (envVar : Option String)
    (urlParse : String → Except String (Option String))
    (jsonParse : String → Option JsonConnectionFields)
    (input : Option String) :
    ((validateATXPConnectionString envVar urlParse jsonParse input).isValid = true ↔
      ∃ cs a, getATXPConnectionString envVar input = Except.ok cs ∧
        findATXPAccount urlParse jsonParse cs = Except.ok a) ∧
    ((validateATXPConnectionString envVar urlParse jsonParse input).isValid = false →
      ∃ e, (validateATXPConnectionString envVar urlParse jsonParse input).error = some e ∧
        (getATXPConnectionString envVar input = Except.error e ∨
          ∃ cs, getATXPConnectionString envVar input = Except.ok cs ∧
            findATXPAccount urlParse jsonParse cs = Except.error e)) := by
  unfold validateATXPConnectionString
  rcases hg : getATXPConnectionString envVar input with e | cs
  · simp only [hg]
    constructor
    · constructor
      · intro h
        cases h
      · rintro ⟨cs, a, hcs, _⟩
        cases hcs
    · intro _
      exact ⟨e, rfl, Or.inl rfl⟩
  · simp only [hg]
    rcases hf : findATXPAccount urlParse jsonParse cs with e2 | a
    · simp only [hf]
      constructor
      · constructor
        · intro h
          cases h
        · rintro ⟨cs2, a, hcs2, ha⟩
          cases hcs2
          rw [hf] at ha
          cases ha
      · intro _
        exact ⟨e2, rfl, Or.inr ⟨cs, rfl, hf⟩⟩
    · simp only [hf]
      constructor
      · constructor
        · intro _
          exact ⟨cs, a, rfl, hf⟩
        · intro _
          trivial
      · intro h
        cases h

/-- C10 witness: a concrete URL-format connection string validates, via the
main theorem applied with concrete host-parse oracles. -/
theorem c10_validate_reports_first_failure_witness :
    (validateATXPConnectionString none
        (fun _ => Except.ok (some ("ABC123")))
        (fun _ => none)
        (some ("https://accounts.atxp.ai?connection_token=ABC123"))).isValid =
      true :=
  (c10_validate_reports_first_failure none
      (fun _ => Except.ok (some ("ABC123")))
      (fun _ => none)
      (some ("https://accounts.atxp.ai?connection_token=ABC123"))).1.mpr
    ⟨"https://accounts.atxp.ai?connection_token=ABC123",
     { accountId := none, privateKey := none,
       connectionToken := some ("ABC123"),
       network := "mainnet", currency := "ETH" },
     rfl, rfl⟩
